import Mathlib

/-!
Verification of the stacking, alpha and statistic logic of
`gammapy/datasets/spectrum.py` (classes `SpectrumDataset` and
`SpectrumDatasetOnOff`).

Numeric arrays are modelled as `List ℚ` (real datasets hold finite
floating-point values; the idealized-rational semantics is exact for the
zero/nonzero and special-value structure the claims are about).  The IEEE
special values produced by numpy division are modelled explicitly by `NVal`:
division of a nonzero value by zero gives an infinity, `0/0` gives NaN, and
`np.nan_to_num` maps NaN to `0` and the infinities to the largest finite
double `±maxFloat`.

`RegionNDMap` (module `gammapy.maps`) is not part of the analysed source
file; its elementwise operations are modelled from the spec: `Map.stack`
with boolean weights is `data += other * weights` on numeric maps and a
logical OR on boolean masks, `Map` arithmetic is elementwise.
-/

/-- Special-value-aware numeric result: a finite value, NaN, `+inf` or `-inf`.
Models the possible results of numpy floating-point division. -/
inductive NVal where
  | fin (q : ℚ)
  | nan
  | pinf
  | ninf
deriving DecidableEq, Repr

/-- The largest finite IEEE double, `np.finfo(float64).max`:
`(2^53 - 1) * 2^971 = 1.7976931348623157e308`.  `np.nan_to_num` substitutes
it for `+inf`. -/
def maxFloat : ℚ := (2 ^ 53 - 1) * 2 ^ 971

/-- numpy elementwise division semantics on finite operands:
`a/0` is `±inf` for `a ≠ 0`, `0/0` is NaN, otherwise the exact quotient. -/
def npdiv (a b : ℚ) : NVal :=
  if b = 0 then
    if a = 0 then NVal.nan
    else if 0 < a then NVal.pinf
    else NVal.ninf
  else NVal.fin (a / b)

/-- `np.nan_to_num` on a scalar: NaN becomes `0`, `+inf` becomes the largest
finite double, `-inf` its negative, finite values pass through. -/
def nanToNum : NVal → ℚ
  | NVal.fin q => q
  | NVal.nan => 0
  | NVal.pinf => maxFloat
  | NVal.ninf => -maxFloat

/-- `np.nan_to_num` kept in the special-value domain (the output array of
`np.nan_to_num` re-read as possibly-special values: none are special). -/
def nanToNumN : NVal → NVal
  | NVal.fin q => NVal.fin q
  | NVal.nan => NVal.fin 0
  | NVal.pinf => NVal.fin maxFloat
  | NVal.ninf => NVal.fin (-maxFloat)

/-- Python `1 / x` on a numpy float scalar `x`: `1/NaN = NaN`,
`1/(±inf) = 0`, `1/0 = +inf`, otherwise exact. -/
def recipPy : NVal → NVal
  | NVal.fin q => npdiv 1 q
  | NVal.nan => NVal.nan
  | NVal.pinf => NVal.fin 0
  | NVal.ninf => NVal.fin 0

/-- Numeric value of a boolean mask entry, as numpy casts bool in
arithmetic: `True = 1`, `False = 0`. -/
def boolInd (b : Bool) : ℚ := if b then 1 else 0

/-- Modelled from the spec: elementwise product of a numeric map with a
boolean mask (`map *= mask`), zeroing entries outside the mask. -/
def mulMask (xs : List ℚ) (m : List Bool) : List ℚ :=
  List.zipWith (fun x b => x * boolInd b) xs m

/-- Modelled from the spec: elementwise sum of two numeric maps
(`Map.stack` without weights: `data += other`). -/
def addList (a b : List ℚ) : List ℚ := List.zipWith (· + ·) a b

/-- Modelled from the spec: `Map.stack(other, weights=w)` on numeric maps:
`data += other * w` with the boolean weights gating `other`. -/
def mapStackW (acc other : List ℚ) (w : List Bool) : List ℚ :=
  addList acc (mulMask other w)

/-- Modelled from the spec: `Map.stack` on boolean masks is the elementwise
logical OR (numpy `bool += bool`). -/
def orList (a b : List Bool) : List Bool := List.zipWith or a b

/-- State of a `SpectrumDataset` relevant to the stacking claims: counts
(reco axis), exposure (true axis) and the safe mask (reco axis). -/
structure SpectrumDataset where
  counts : List ℚ
  exposure : List ℚ
  mask_safe : List Bool
deriving DecidableEq, Repr

/-- `SpectrumDataset.stack(self, other)` (spectrum.py lines 550-589),
restricted to the fields above.  The receiver's counts are first multiplied
by its own safe mask, then `other`'s counts are stacked in gated by
`other`'s mask; exposure is stacked ungated; the safe masks are OR-combined. -/
def SpectrumDataset.stack (self other : SpectrumDataset) : SpectrumDataset :=
  { counts := mapStackW (mulMask self.counts self.mask_safe) other.counts other.mask_safe
    exposure := addList self.exposure other.exposure
    mask_safe := orList self.mask_safe other.mask_safe }

/-- `SpectrumDataset.create` (spectrum.py lines 454-511): the empty dataset
has zero counts, zero exposure and an all-`False` safe mask. -/
def SpectrumDataset.empty (n : ℕ) : SpectrumDataset :=
  { counts := List.replicate n 0
    exposure := List.replicate n 0
    mask_safe := List.replicate n false }

/-- State of a `SpectrumDatasetOnOff` relevant to the claims.  `counts_off`,
`acceptance` and `acceptance_off` are optional as in the source (`None`
possible); `models` is the stored `_models` reference (abstracted to a
token), `none` when no models are set. -/
structure SpectrumDatasetOnOff where
  counts : List ℚ
  counts_off : Option (List ℚ)
  acceptance : Option (List ℚ)
  acceptance_off : Option (List ℚ)
  exposure : List ℚ
  mask_safe : List Bool
  models : Option ℕ
deriving DecidableEq, Repr

/-- The `alpha` computation (spectrum.py lines 914-919) on raw arrays:
`alpha = acceptance / acceptance_off` elementwise, then
`np.nan_to_num(alpha.data, copy=False)` in place. -/
def alphaData (acc accOff : List ℚ) : List ℚ :=
  List.zipWith (fun a b => nanToNum (npdiv a b)) acc accOff

/-- The `alpha` property of `SpectrumDatasetOnOff` (spectrum.py lines
914-919); meaningful when `acceptance` and `acceptance_off` are present. -/
def SpectrumDatasetOnOff.alpha (d : SpectrumDatasetOnOff) : List ℚ :=
  alphaData (d.acceptance.getD []) (d.acceptance_off.getD [])

/-- `SpectrumDatasetOnOff._is_stackable` (spectrum.py lines 1068-1077):
`False` iff any of `acceptance_off`, `acceptance`, `counts_off` is `None`. -/
def SpectrumDatasetOnOff.is_stackable (d : SpectrumDatasetOnOff) : Bool :=
  if d.acceptance_off.isNone || d.acceptance.isNone || d.counts_off.isNone then
    false
  else
    true

/-- `total_off` accumulated in `SpectrumDatasetOnOff.stack` (lines
1164-1169): a zero map on `self.counts`' geometry, stacked with each
operand's `counts_off` gated by that operand's safe mask. -/
def stackTotalOff (self other : SpectrumDatasetOnOff) : List ℚ :=
  mapStackW
    (mapStackW (List.replicate self.counts.length 0)
      (self.counts_off.getD []) self.mask_safe)
    (other.counts_off.getD []) other.mask_safe

/-- `total_alpha` accumulated in `SpectrumDatasetOnOff.stack` (lines
1164-1172): a zero map stacked with each operand's `alpha * counts_off`
gated by that operand's safe mask. -/
def stackTotalAlpha (self other : SpectrumDatasetOnOff) : List ℚ :=
  mapStackW
    (mapStackW (List.replicate self.counts.length 0)
      (List.zipWith (· * ·) self.alpha (self.counts_off.getD [])) self.mask_safe)
    (List.zipWith (· * ·) other.alpha (other.counts_off.getD [])) other.mask_safe

/-- `average_alpha` of `SpectrumDatasetOnOff.stack` (line 1176):
`total_alpha.data.sum() / total_off.data.sum()`, numpy float division. -/
def stackAverageAlpha (self other : SpectrumDatasetOnOff) : NVal :=
  npdiv (stackTotalAlpha self other).sum (stackTotalOff self other).sum

/-- Post-stack state of the receiver of `SpectrumDatasetOnOff.stack`.
`acceptance_off` may hold special values (numpy division), so it is a list
of `NVal`; the other fields stay finite. -/
structure OnOffStackResult where
  counts : List ℚ
  counts_off : List ℚ
  acceptance : List ℚ
  acceptance_off : List NVal
  exposure : List ℚ
  mask_safe : List Bool
  models : Option ℕ
deriving DecidableEq, Repr

/-- Class attribute `SpectrumDataset.stat_type = "cash"` (spectrum.py
line 65). -/
def SpectrumDataset.stat_type : String := "cash"

/-- Class attribute `SpectrumDatasetOnOff.stat_type = "wstat"` (spectrum.py
line 821). -/
def SpectrumDatasetOnOff.stat_type : String := "wstat"

/-- `SpectrumDatasetOnOff.stack(self, other)` (spectrum.py lines 1157-1191)
after its `isinstance` and stackability checks (modelled separately):
per bin, `acceptance_off = total_off / total_alpha`, overwritten with
`1 / average_alpha` in bins where `total_off == 0`; `acceptance` is reset
to ones on `self.counts`' geometry; `counts_off` is mask-gated-summed; then
`super().stack(other)` combines counts, exposure and mask and, since
`stat_type` is `"wstat"` and not `"cash"`, sets `self.models = None`. -/
def SpectrumDatasetOnOff.stack (self other : SpectrumDatasetOnOff) :
    OnOffStackResult :=
  { counts := mapStackW (mulMask self.counts self.mask_safe)
      other.counts other.mask_safe
    counts_off := mapStackW (mulMask (self.counts_off.getD []) self.mask_safe)
      (other.counts_off.getD []) other.mask_safe
    acceptance := List.replicate self.counts.length 1
    acceptance_off :=
      List.zipWith
        (fun t r => if t = 0 then recipPy (stackAverageAlpha self other) else r)
        (stackTotalOff self other)
        (List.zipWith npdiv (stackTotalOff self other)
          (stackTotalAlpha self other))
    exposure := addList self.exposure other.exposure
    mask_safe := orList self.mask_safe other.mask_safe
    models :=
      if SpectrumDatasetOnOff.stat_type = "cash" then self.models else none }

/-- Errors raised by the `stack` precondition checks: `TypeError` on an
`isinstance` failure, `ValueError` on a non-stackable on/off operand. -/
inductive StackError where
  | typeMismatch
  | notStackable
deriving DecidableEq, Repr

/-- A Python object passed as the `other` argument of `stack`: a plain
`SpectrumDataset`, a `SpectrumDatasetOnOff` (a subclass of
`SpectrumDataset`), or an unrelated object. -/
inductive PyObj where
  | spectrum (d : SpectrumDataset)
  | onoff (d : SpectrumDatasetOnOff)
  | unrelated
deriving DecidableEq, Repr

/-- Python `isinstance(arg, SpectrumDataset)`: `SpectrumDatasetOnOff` is a
subclass of `SpectrumDataset`, so both dataset kinds pass. -/
def isinstanceSpectrumDataset : PyObj → Bool
  | PyObj.spectrum _ => true
  | PyObj.onoff _ => true
  | PyObj.unrelated => false

/-- Python `isinstance(arg, SpectrumDatasetOnOff)`. -/
def isinstanceOnOff : PyObj → Bool
  | PyObj.onoff _ => true
  | _ => false

/-- The error check of `SpectrumDataset.stack` (spectrum.py lines 550-551):
`TypeError` iff the argument is not a `SpectrumDataset` instance. -/
def spectrumStackCheck (arg : PyObj) : Except StackError Unit :=
  if isinstanceSpectrumDataset arg then Except.ok ()
  else Except.error StackError.typeMismatch

/-- The error checks of `SpectrumDatasetOnOff.stack` (spectrum.py lines
1157-1162): `TypeError` iff the argument is not a `SpectrumDatasetOnOff`;
then `ValueError` iff either operand is not stackable. -/
def onoffStackCheck (self : SpectrumDatasetOnOff) (arg : PyObj) :
    Except StackError Unit :=
  match arg with
  | PyObj.onoff o =>
      if self.is_stackable && o.is_stackable then Except.ok ()
      else Except.error StackError.notStackable
  | _ => Except.error StackError.typeMismatch

theorem zipWith_getD {α β γ : Type} (f : α → β → γ) (da : α) (db : β) (dc : γ) :
    ∀ (l1 : List α) (l2 : List β) (i : ℕ), i < l1.length → i < l2.length →
      (List.zipWith f l1 l2).getD i dc = f (l1.getD i da) (l2.getD i db) := by
  intro l1
  induction l1 with
  | nil => intro l2 i h1 _; simp at h1
  | cons a as ih =>
    intro l2 i h1 h2
    cases l2 with
    | nil => simp at h2
    | cons b bs =>
      cases i with
      | zero => simp [List.getD]
      | succ j =>
        simp only [List.zipWith_cons_cons, List.getD_cons_succ]
        exact ih bs j (Nat.lt_of_succ_lt_succ h1) (Nat.lt_of_succ_lt_succ h2)

theorem replicate_getD {α : Type} (x d : α) :
    ∀ (n i : ℕ), i < n → (List.replicate n x).getD i d = x := by
  intro n
  induction n with
  | zero => intro i h; simp at h
  | succ m ih =>
    intro i h
    cases i with
    | zero => simp [List.replicate, List.getD]
    | succ j =>
      simp only [List.replicate, List.getD_cons_succ]
      exact ih j (Nat.lt_of_succ_lt_succ h)

theorem map_getD {α β : Type} (f : α → β) (da : α) (db : β) :
    ∀ (l : List α) (i : ℕ), i < l.length →
      (List.map f l).getD i db = f (l.getD i da) := by
  intro l
  induction l with
  | nil => intro i h; simp at h
  | cons a as ih =>
    intro i h
    cases i with
    | zero => simp [List.getD]
    | succ j =>
      simp only [List.map_cons, List.getD_cons_succ]
      exact ih j (Nat.lt_of_succ_lt_succ h)

theorem mulMask_getD (xs : List ℚ) (m : List Bool) (i : ℕ)
    (h1 : i < xs.length) (h2 : i < m.length) :
    (mulMask xs m).getD i 0 = xs.getD i 0 * boolInd (m.getD i false) :=
  zipWith_getD (fun x b => x * boolInd b) 0 false 0 xs m i h1 h2

theorem addList_getD (a b : List ℚ) (i : ℕ)
    (h1 : i < a.length) (h2 : i < b.length) :
    (addList a b).getD i 0 = a.getD i 0 + b.getD i 0 :=
  zipWith_getD (· + ·) 0 0 0 a b i h1 h2

theorem orList_getD (a b : List Bool) (i : ℕ)
    (h1 : i < a.length) (h2 : i < b.length) :
    (orList a b).getD i false = (a.getD i false || b.getD i false) :=
  zipWith_getD or false false false a b i h1 h2

theorem mulMask_length (xs : List ℚ) (m : List Bool) :
    (mulMask xs m).length = min xs.length m.length := by
  simp [mulMask]

theorem addList_length (a b : List ℚ) :
    (addList a b).length = min a.length b.length := by
  simp [addList]

theorem addList_replicate_zero :
    ∀ (xs : List ℚ), addList xs (List.replicate xs.length 0) = xs := by
  intro xs
  induction xs with
  | nil => rfl
  | cons x rest ih =>
    simp only [List.length_cons, List.replicate, addList, List.zipWith_cons_cons,
      add_zero]
    exact congrArg (x :: ·) ih

theorem orList_replicate_false :
    ∀ (m : List Bool), orList m (List.replicate m.length false) = m := by
  intro m
  induction m with
  | nil => rfl
  | cons b rest ih =>
    simp only [List.length_cons, List.replicate, orList, List.zipWith_cons_cons,
      Bool.or_false]
    exact congrArg (b :: ·) ih

theorem mulMask_replicate_true :
    ∀ (xs : List ℚ), mulMask xs (List.replicate xs.length true) = xs := by
  intro xs
  induction xs with
  | nil => rfl
  | cons x rest ih =>
    simp only [List.length_cons, List.replicate, mulMask, List.zipWith_cons_cons,
      boolInd, if_pos, mul_one]
    exact congrArg (x :: ·) ih

theorem mulMask_replicate_zero_false :
    ∀ (n : ℕ), mulMask (List.replicate n 0) (List.replicate n false)
      = List.replicate n 0 := by
  intro n
  induction n with
  | zero => rfl
  | succ m ih =>
    simp only [List.replicate, mulMask, List.zipWith_cons_cons, zero_mul]
    exact congrArg ((0 : ℚ) :: ·) ih

/-- C2: after `SpectrumDataset.stack`, each stacked reco bin holds
`counts_self * mask_self + counts_other * mask_other`: each operand's
counts are gated by its own safe mask and then pointwise summed. -/
theorem stack_counts_masked_sum (d1 d2 : SpectrumDataset) (n i : ℕ)
    (hc1 : d1.counts.length = n) (hm1 : d1.mask_safe.length = n)
    (hc2 : d2.counts.length = n) (hm2 : d2.mask_safe.length = n)
    (hi : i < n) :
    (d1.stack d2).counts.getD i 0 =
      d1.counts.getD i 0 * boolInd (d1.mask_safe.getD i false) +
        d2.counts.getD i 0 * boolInd (d2.mask_safe.getD i false) := by
  have h1 : (mulMask d1.counts d1.mask_safe).length = n := by
    rw [mulMask_length, hc1, hm1, Nat.min_self]
  have h2 : (mulMask d2.counts d2.mask_safe).length = n := by
    rw [mulMask_length, hc2, hm2, Nat.min_self]
  show (addList (mulMask d1.counts d1.mask_safe)
      (mulMask d2.counts d2.mask_safe)).getD i 0 = _
  rw [addList_getD _ _ i (by rw [h1]; exact hi) (by rw [h2]; exact hi),
    mulMask_getD _ _ i (by rw [hc1]; exact hi) (by rw [hm1]; exact hi),
    mulMask_getD _ _ i (by rw [hc2]; exact hi) (by rw [hm2]; exact hi)]

theorem stack_counts_masked_sum_witness :
    (SpectrumDataset.stack ⟨[10, 20, 30], [0, 0, 0], [false, true, true]⟩
        ⟨[1, 2, 3], [0, 0, 0], [true, true, false]⟩).counts.getD 0 0 = 1 ∧
    (SpectrumDataset.stack ⟨[10, 20, 30], [0, 0, 0], [false, true, true]⟩
        ⟨[1, 2, 3], [0, 0, 0], [true, true, false]⟩).counts.getD 2 0 = 30 := by
  constructor
  · have h := stack_counts_masked_sum
      ⟨[10, 20, 30], [0, 0, 0], [false, true, true]⟩
      ⟨[1, 2, 3], [0, 0, 0], [true, true, false]⟩ 3 0
      (by decide) (by decide) (by decide) (by decide) (by decide)
    rw [h]; norm_num [boolInd]
  · have h := stack_counts_masked_sum
      ⟨[10, 20, 30], [0, 0, 0], [false, true, true]⟩
      ⟨[1, 2, 3], [0, 0, 0], [true, true, false]⟩ 3 2
      (by decide) (by decide) (by decide) (by decide) (by decide)
    rw [h]; norm_num [boolInd]

/-- C9: after `SpectrumDataset.stack`, the stacked safe mask is the
bin-wise logical OR of the two input masks. -/
theorem stack_mask_or (d1 d2 : SpectrumDataset) (n i : ℕ)
    (hm1 : d1.mask_safe.length = n) (hm2 : d2.mask_safe.length = n)
    (hi : i < n) :
    (d1.stack d2).mask_safe.getD i false =
      (d1.mask_safe.getD i false || d2.mask_safe.getD i false) := by
  show (orList d1.mask_safe d2.mask_safe).getD i false = _
  exact orList_getD _ _ i (by rw [hm1]; exact hi) (by rw [hm2]; exact hi)

theorem stack_mask_or_witness :
    (SpectrumDataset.stack ⟨[10, 20, 30], [0, 0, 0], [false, true, true]⟩
        ⟨[1, 2, 3], [0, 0, 0], [true, true, false]⟩).mask_safe.getD 0 false
      = true := by
  have h := stack_mask_or
    ⟨[10, 20, 30], [0, 0, 0], [false, true, true]⟩
    ⟨[1, 2, 3], [0, 0, 0], [true, true, false]⟩ 3 0
    (by decide) (by decide) (by decide)
  rw [h]; decide

/-- C3 counterexample: stacking the empty dataset into a dataset whose own
safe mask excludes a bin with nonzero counts changes the counts — the
receiver's counts are multiplied by its own mask before the sum, so the
empty dataset is not an identity element for arbitrary masks. -/
theorem stack_empty_not_identity :
    (SpectrumDataset.stack ⟨[5], [0], [false]⟩
      (SpectrumDataset.empty 1)).counts ≠ ([5] : List ℚ) := by
  norm_num [SpectrumDataset.stack, SpectrumDataset.empty, mapStackW, addList,
    mulMask, boolInd, List.replicate]

/-- C3 amended: stacking the empty dataset into `D` always leaves `D`'s
exposure and safe mask unchanged, and leaves `D`'s counts unchanged
provided `D`'s safe mask is all `True` (with a partial mask, counts outside
`D`'s own mask are zeroed by the gating step). -/
theorem stack_empty_identity_amended (D : SpectrumDataset) (n : ℕ)
    (hc : D.counts.length = n) (he : D.exposure.length = n)
    (hm : D.mask_safe.length = n) :
    (D.stack (SpectrumDataset.empty n)).exposure = D.exposure ∧
    (D.stack (SpectrumDataset.empty n)).mask_safe = D.mask_safe ∧
    (D.mask_safe = List.replicate n true →
      (D.stack (SpectrumDataset.empty n)).counts = D.counts) := by
  refine ⟨?_, ?_, ?_⟩
  · show addList D.exposure (List.replicate n 0) = D.exposure
    rw [← he]; exact addList_replicate_zero D.exposure
  · show orList D.mask_safe (List.replicate n false) = D.mask_safe
    rw [← hm]; exact orList_replicate_false D.mask_safe
  · intro hall
    show mapStackW (mulMask D.counts D.mask_safe)
      (List.replicate n 0) (List.replicate n false) = D.counts
    rw [hall, ← hc, mulMask_replicate_true D.counts, mapStackW, hc,
      mulMask_replicate_zero_false, ← hc, addList_replicate_zero]

theorem stack_empty_identity_amended_witness :
    (SpectrumDataset.stack ⟨[7], [3], [true]⟩
        (SpectrumDataset.empty 1)).exposure = [3] ∧
    (SpectrumDataset.stack ⟨[7], [3], [true]⟩
        (SpectrumDataset.empty 1)).mask_safe = [true] ∧
    (SpectrumDataset.stack ⟨[7], [3], [true]⟩
        (SpectrumDataset.empty 1)).counts = [7] := by
  have h := stack_empty_identity_amended ⟨[7], [3], [true]⟩ 1
    (by decide) (by decide) (by decide)
  exact ⟨h.1, h.2.1, h.2.2 (by decide)⟩

theorem mapStackW_length (a b : List ℚ) (w : List Bool) :
    (mapStackW a b w).length = min a.length (min b.length w.length) := by
  simp [mapStackW, addList, mulMask]

theorem mapStackW_getD (a b : List ℚ) (w : List Bool) (i : ℕ)
    (ha : i < a.length) (hb : i < b.length) (hw : i < w.length) :
    (mapStackW a b w).getD i 0 =
      a.getD i 0 + b.getD i 0 * boolInd (w.getD i false) := by
  unfold mapStackW
  rw [addList_getD _ _ i ha (by rw [mulMask_length]; omega),
    mulMask_getD _ _ i hb hw]

theorem alpha_length (d : SpectrumDatasetOnOff) (n : ℕ)
    (h4 : (d.acceptance.getD []).length = n)
    (h5 : (d.acceptance_off.getD []).length = n) :
    d.alpha.length = n := by
  simp [SpectrumDatasetOnOff.alpha, alphaData, h4, h5]

theorem stackTotalOff_length (s o : SpectrumDatasetOnOff) (n : ℕ)
    (h1 : s.counts.length = n) (h2 : (s.counts_off.getD []).length = n)
    (h3 : s.mask_safe.length = n)
    (k2 : (o.counts_off.getD []).length = n) (k3 : o.mask_safe.length = n) :
    (stackTotalOff s o).length = n := by
  simp [stackTotalOff, mapStackW_length, h1, h2, h3, k2, k3]

theorem stackTotalAlpha_length (s o : SpectrumDatasetOnOff) (n : ℕ)
    (h1 : s.counts.length = n) (h2 : (s.counts_off.getD []).length = n)
    (h3 : s.mask_safe.length = n) (h4 : (s.acceptance.getD []).length = n)
    (h5 : (s.acceptance_off.getD []).length = n)
    (k2 : (o.counts_off.getD []).length = n) (k3 : o.mask_safe.length = n)
    (k4 : (o.acceptance.getD []).length = n)
    (k5 : (o.acceptance_off.getD []).length = n) :
    (stackTotalAlpha s o).length = n := by
  have a1 : s.alpha.length = n := alpha_length s n h4 h5
  have a2 : o.alpha.length = n := alpha_length o n k4 k5
  simp [stackTotalAlpha, mapStackW_length, h1, h2, h3, k2, k3, a1, a2]

/-- Sample on/off dataset: one bin, `counts_off = [4]`, `acceptance = [1]`,
`acceptance_off = [2]` (so `alpha = [1/2]`), safe mask all true, with a
model attached. -/
def sampleOn1 : SpectrumDatasetOnOff :=
  ⟨[0], some [4], some [1], some [2], [0], [true], some 5⟩

/-- Sample on/off dataset: one bin, `counts_off = [0]`, unit acceptances,
safe mask all true. -/
def sampleOn2 : SpectrumDatasetOnOff :=
  ⟨[0], some [0], some [1], some [1], [0], [true], none⟩

/-- Sample on/off dataset with two bins: `counts_off = [0, 6]`,
`acceptance = [1, 1]`, `acceptance_off = [2, 2]` (so `alpha = [1/2, 1/2]`). -/
def sampleOn3 : SpectrumDatasetOnOff :=
  ⟨[0, 0], some [0, 6], some [1, 1], some [2, 2], [0, 0], [true, true], none⟩

/-- Sample on/off dataset with two bins and zero off counts everywhere. -/
def sampleOn4 : SpectrumDatasetOnOff :=
  ⟨[0, 0], some [0, 0], some [1, 1], some [1, 1], [0, 0], [true, true], none⟩

/-- C1 as stated is false: in the single nonzero-`total_off` bin of this
concrete stack, the code stores `total_off / total_alpha = 4/2 = 2`, not the
claimed `total_alpha / total_off = 2/4 = 1/2`. -/
theorem onoff_stack_acceptance_off_claim_false :
    (stackTotalOff sampleOn1 sampleOn2).getD 0 0 ≠ 0 ∧
    (sampleOn1.stack sampleOn2).acceptance_off.getD 0 NVal.nan ≠
      npdiv ((stackTotalAlpha sampleOn1 sampleOn2).getD 0 0)
        ((stackTotalOff sampleOn1 sampleOn2).getD 0 0) := by
  constructor
  · norm_num [stackTotalOff, sampleOn1, sampleOn2, mapStackW, addList,
      mulMask, boolInd, List.replicate]
  · norm_num [SpectrumDatasetOnOff.stack, stackTotalOff, stackTotalAlpha,
      stackAverageAlpha, SpectrumDatasetOnOff.alpha, alphaData, nanToNum,
      npdiv, recipPy, mapStackW, addList, mulMask, orList, boolInd,
      sampleOn1, sampleOn2, List.replicate]

/-- C1 amended: for stackable operands, in every bin where the mask-gated
total off counts are nonzero, the stacked `acceptance_off` equals
`total_off / total_alpha_weighted` — the reciprocal of the claimed ratio
(numpy division semantics; the code divides `total_off` by `total_alpha`). -/
theorem onoff_stack_acceptance_off_ratio (s o : SpectrumDatasetOnOff)
    (n i : ℕ) (hs : s.is_stackable = true) (ho : o.is_stackable = true)
    (h1 : s.counts.length = n) (h2 : (s.counts_off.getD []).length = n)
    (h3 : s.mask_safe.length = n) (h4 : (s.acceptance.getD []).length = n)
    (h5 : (s.acceptance_off.getD []).length = n)
    (k2 : (o.counts_off.getD []).length = n) (k3 : o.mask_safe.length = n)
    (k4 : (o.acceptance.getD []).length = n)
    (k5 : (o.acceptance_off.getD []).length = n)
    (hi : i < n) (ht : (stackTotalOff s o).getD i 0 ≠ 0) :
    (s.stack o).acceptance_off.getD i NVal.nan =
      npdiv ((stackTotalOff s o).getD i 0)
        ((stackTotalAlpha s o).getD i 0) := by
  have lOff : (stackTotalOff s o).length = n :=
    stackTotalOff_length s o n h1 h2 h3 k2 k3
  have lAlpha : (stackTotalAlpha s o).length = n :=
    stackTotalAlpha_length s o n h1 h2 h3 h4 h5 k2 k3 k4 k5
  show (List.zipWith
      (fun t r => if t = 0 then recipPy (stackAverageAlpha s o) else r)
      (stackTotalOff s o)
      (List.zipWith npdiv (stackTotalOff s o)
        (stackTotalAlpha s o))).getD i NVal.nan = _
  rw [zipWith_getD _ (0 : ℚ) NVal.nan NVal.nan _ _ i
      (by rw [lOff]; exact hi)
      (by rw [List.length_zipWith, lOff, lAlpha]; omega)]
  rw [if_neg ht]
  exact zipWith_getD npdiv (0 : ℚ) (0 : ℚ) NVal.nan _ _ i
    (by rw [lOff]; exact hi) (by rw [lAlpha]; exact hi)

theorem onoff_stack_acceptance_off_ratio_witness :
    (sampleOn1.stack sampleOn2).acceptance_off.getD 0 NVal.nan =
      NVal.fin 2 := by
  have h := onoff_stack_acceptance_off_ratio sampleOn1 sampleOn2 1 0
    (by decide) (by decide) (by decide) (by decide) (by decide) (by decide)
    (by decide) (by decide) (by decide) (by decide) (by decide) (by decide)
    (by norm_num [stackTotalOff, sampleOn1, sampleOn2, mapStackW, addList,
      mulMask, boolInd, List.replicate])
  rw [h]
  norm_num [stackTotalOff, stackTotalAlpha, SpectrumDatasetOnOff.alpha,
    alphaData, nanToNum, npdiv, sampleOn1, sampleOn2, mapStackW, addList,
    mulMask, boolInd, List.replicate]

/-- C4: after `SpectrumDatasetOnOff.stack`, the receiver's `acceptance` is
exactly 1 in every reco bin (it is reset to a fresh unit map on the
receiver's counts geometry, lines 1183-1184). -/
theorem onoff_stack_acceptance_one (s o : SpectrumDatasetOnOff) (i : ℕ)
    (hs : s.is_stackable = true) (ho : o.is_stackable = true)
    (hi : i < s.counts.length) :
    (s.stack o).acceptance.getD i 0 = 1 := by
  show (List.replicate s.counts.length (1 : ℚ)).getD i 0 = 1
  exact replicate_getD 1 0 _ i hi

theorem onoff_stack_acceptance_one_witness :
    (sampleOn1.stack sampleOn2).acceptance.getD 0 0 = 1 :=
  onoff_stack_acceptance_one sampleOn1 sampleOn2 0
    (by decide) (by decide) (by decide)

/-- C5: in every bin where the mask-gated total off counts are zero, the
stacked `acceptance_off` is `1 / average_alpha`, with `average_alpha` the
ratio of the summed `total_alpha_weighted` over the summed `total_off`
across all bins (lines 1174-1181). -/
theorem onoff_stack_zero_off_fallback (s o : SpectrumDatasetOnOff)
    (n i : ℕ) (hs : s.is_stackable = true) (ho : o.is_stackable = true)
    (h1 : s.counts.length = n) (h2 : (s.counts_off.getD []).length = n)
    (h3 : s.mask_safe.length = n) (h4 : (s.acceptance.getD []).length = n)
    (h5 : (s.acceptance_off.getD []).length = n)
    (k2 : (o.counts_off.getD []).length = n) (k3 : o.mask_safe.length = n)
    (k4 : (o.acceptance.getD []).length = n)
    (k5 : (o.acceptance_off.getD []).length = n)
    (hi : i < n) (ht : (stackTotalOff s o).getD i 0 = 0) :
    (s.stack o).acceptance_off.getD i NVal.nan =
      recipPy (npdiv (stackTotalAlpha s o).sum (stackTotalOff s o).sum) := by
  have lOff : (stackTotalOff s o).length = n :=
    stackTotalOff_length s o n h1 h2 h3 k2 k3
  have lAlpha : (stackTotalAlpha s o).length = n :=
    stackTotalAlpha_length s o n h1 h2 h3 h4 h5 k2 k3 k4 k5
  show (List.zipWith
      (fun t r => if t = 0 then recipPy (stackAverageAlpha s o) else r)
      (stackTotalOff s o)
      (List.zipWith npdiv (stackTotalOff s o)
        (stackTotalAlpha s o))).getD i NVal.nan = _
  rw [zipWith_getD _ (0 : ℚ) NVal.nan NVal.nan _ _ i
      (by rw [lOff]; exact hi)
      (by rw [List.length_zipWith, lOff, lAlpha]; omega)]
  rw [if_pos ht]
  rfl

theorem onoff_stack_zero_off_fallback_witness :
    (sampleOn3.stack sampleOn4).acceptance_off.getD 0 NVal.nan =
      NVal.fin 2 := by
  have h := onoff_stack_zero_off_fallback sampleOn3 sampleOn4 2 0
    (by decide) (by decide) (by decide) (by decide) (by decide) (by decide)
    (by decide) (by decide) (by decide) (by decide) (by decide) (by decide)
    (by norm_num [stackTotalOff, sampleOn3, sampleOn4, mapStackW, addList,
      mulMask, boolInd, List.replicate])
  rw [h]
  norm_num [stackTotalOff, stackTotalAlpha, SpectrumDatasetOnOff.alpha,
    alphaData, nanToNum, npdiv, recipPy, sampleOn3, sampleOn4, mapStackW,
    addList, mulMask, boolInd, List.replicate]

/-- Sample on/off dataset whose `acceptance` is nonzero in a bin where
`acceptance_off` is zero. -/
def sampleOn5 : SpectrumDatasetOnOff :=
  ⟨[0], some [0], some [1], some [0], [0], [true], none⟩

/-- Sample on/off dataset with `acceptance = [3]`, `acceptance_off = [4]`. -/
def sampleOn6 : SpectrumDatasetOnOff :=
  ⟨[0], some [0], some [3], some [4], [0], [true], none⟩

/-- C6 as stated is false: with `acceptance = [1]` and
`acceptance_off = [0]`, the quotient is `+inf` and `np.nan_to_num` replaces
it with the largest finite double, not with 0. -/
theorem alpha_zero_claim_false : sampleOn5.alpha.getD 0 0 ≠ 0 := by
  norm_num [SpectrumDatasetOnOff.alpha, alphaData, sampleOn5, npdiv,
    nanToNum, maxFloat]

/-- C6 amended: `alpha` is `np.nan_to_num(acceptance / acceptance_off)`
bin-wise: the exact quotient where `acceptance_off ≠ 0`; `0` where both
`acceptance_off` and `acceptance` are `0` (NaN from `0/0` replaced by 0);
and the largest finite double where `acceptance_off = 0` but
`acceptance > 0` (`+inf` substituted, not 0). -/
theorem alpha_nan_to_num (d : SpectrumDatasetOnOff) (acc accOff : List ℚ)
    (n i : ℕ) (hacc : d.acceptance = some acc)
    (haccOff : d.acceptance_off = some accOff)
    (ha : acc.length = n) (hb : accOff.length = n) (hi : i < n) :
    d.alpha.getD i 0 = nanToNum (npdiv (acc.getD i 0) (accOff.getD i 0)) ∧
    (accOff.getD i 0 ≠ 0 →
      d.alpha.getD i 0 = acc.getD i 0 / accOff.getD i 0) ∧
    (accOff.getD i 0 = 0 → acc.getD i 0 = 0 → d.alpha.getD i 0 = 0) ∧
    (accOff.getD i 0 = 0 → 0 < acc.getD i 0 →
      d.alpha.getD i 0 = maxFloat) := by
  have key : d.alpha.getD i 0 =
      nanToNum (npdiv (acc.getD i 0) (accOff.getD i 0)) := by
    unfold SpectrumDatasetOnOff.alpha alphaData
    rw [hacc, haccOff]
    simp only [Option.getD_some]
    exact zipWith_getD (fun a b => nanToNum (npdiv a b)) 0 0 0 acc accOff i
      (by rw [ha]; exact hi) (by rw [hb]; exact hi)
  refine ⟨key, ?_, ?_, ?_⟩
  · intro h
    rw [key]; unfold npdiv; rw [if_neg h]; rfl
  · intro h h0
    rw [key]; unfold npdiv; rw [if_pos h, if_pos h0]; rfl
  · intro h h0
    rw [key]; unfold npdiv
    rw [if_pos h, if_neg (by exact ne_of_gt h0), if_pos h0]
    rfl

theorem alpha_nan_to_num_witness :
    sampleOn6.alpha.getD 0 0 = 3 / 4 := by
  have h := alpha_nan_to_num sampleOn6 [3] [4] 1 0 rfl rfl
    (by decide) (by decide) (by decide)
  exact h.2.1 (by norm_num)

/-- The raw per-bin WStat array is computed by the external `wstat`
(gammapy.stats, not part of the analysed file) and may contain special
values; `SpectrumDatasetOnOff.stat_array` (lines 960-969) returns
`np.nan_to_num` of it.  Modelled from the spec: the raw `wstat` output is an
arbitrary list of possibly-special values. -/
def stat_array (raw : List NVal) : List NVal := raw.map nanToNumN

/-- C7: the array returned by `stat_array` never contains NaN; every NaN
bin of the raw WStat array is replaced by 0. -/
theorem stat_array_no_nan (raw : List NVal) (i : ℕ) (hi : i < raw.length) :
    (stat_array raw).getD i NVal.nan ≠ NVal.nan ∧
    (raw.getD i NVal.nan = NVal.nan →
      (stat_array raw).getD i NVal.nan = NVal.fin 0) := by
  have key : (stat_array raw).getD i NVal.nan =
      nanToNumN (raw.getD i NVal.nan) :=
    map_getD nanToNumN NVal.nan NVal.nan raw i hi
  constructor
  · rw [key]
    cases raw.getD i NVal.nan <;> simp [nanToNumN]
  · intro h
    rw [key, h]
    rfl

theorem stat_array_no_nan_witness :
    (stat_array [NVal.nan]).getD 0 NVal.nan = NVal.fin 0 :=
  (stat_array_no_nan [NVal.nan] 0 (by decide)).2 rfl

/-- C8 as stated is false: a `SpectrumDatasetOnOff` argument is of a
different dataset kind than a plain `SpectrumDataset` receiver (WStat vs
Cash), yet `SpectrumDataset.stack`'s `isinstance` check accepts it, since
`SpectrumDatasetOnOff` subclasses `SpectrumDataset`: no type-mismatch error
is raised. -/
theorem stack_check_claim_false :
    spectrumStackCheck (PyObj.onoff sampleOn2) = Except.ok () := rfl

/-- C8 amended: `SpectrumDataset.stack` raises the type-mismatch error
exactly for arguments that are not `SpectrumDataset` instances (both
dataset kinds pass, an unrelated object fails);
`SpectrumDatasetOnOff.stack` raises the type-mismatch error exactly for
non-`SpectrumDatasetOnOff` arguments, and otherwise raises the
precondition error exactly when either operand lacks any of `counts_off`,
`acceptance`, `acceptance_off`; otherwise the checks raise nothing. -/
theorem stack_check_characterization (self o : SpectrumDatasetOnOff)
    (d : SpectrumDataset) :
    spectrumStackCheck (PyObj.spectrum d) = Except.ok () ∧
    spectrumStackCheck (PyObj.onoff o) = Except.ok () ∧
    spectrumStackCheck PyObj.unrelated =
      Except.error StackError.typeMismatch ∧
    onoffStackCheck self (PyObj.spectrum d) =
      Except.error StackError.typeMismatch ∧
    onoffStackCheck self PyObj.unrelated =
      Except.error StackError.typeMismatch ∧
    (onoffStackCheck self (PyObj.onoff o) = Except.ok () ↔
      self.is_stackable = true ∧ o.is_stackable = true) := by
  refine ⟨rfl, rfl, rfl, rfl, rfl, ?_⟩
  unfold onoffStackCheck
  by_cases h1 : self.is_stackable <;> by_cases h2 : o.is_stackable <;>
    simp [h1, h2]

/-- C10: after `SpectrumDatasetOnOff.stack`, the receiver's stored models
are `None`: the `stat_type` of the on/off dataset is `"wstat"`, so the
non-Cash branch of the inherited `stack` (line 563) discards any attached
models. -/
theorem onoff_stack_models_none (s o : SpectrumDatasetOnOff) :
    (s.stack o).models = none := rfl
